import Mathlib

/-!
Verification of the fact-table builder in
src/data_warehouse/etl/gold/fact_transactions.py.

The pipeline is embedded shallowly: pandas DataFrames become lists of typed
rows, nullable cells become Option values, and the single pipeline function
build_fact_transactions becomes a Lean function that threads the dimension
tables through explicitly (the source mutates dim_customer and dim_date in
place, so the embedding returns the final state of every dimension table
next to the run result).  Calendar dates are encoded as yyyymmdd integers,
an encoding on which integer order agrees with calendar order; timestamps
are a date plus a seconds-of-day component, so that the dt.date projection
of the source is the date component.  Monetary amounts are rationals.
-/

set_option autoImplicit false

namespace FactTransactions

/-- Calendar dates, encoded as yyyymmdd integers. -/
abbrev Date := Int

/-- The far-future sentinel substituted for a null effective_to:
pd.Timestamp("2099-12-31") at line 79 of the source. -/
def farFuture : Date := 20991231

/-- A parsed timestamp: a calendar date plus a seconds-of-day component.
The dt.date accessor of the source is the date field. -/
structure Timestamp where
  date : Date
  seconds : Nat
deriving DecidableEq

/-- Models pd.to_datetime on an already-parsed timestamp: the identity on
values (the source call only coerces the dtype). -/
def toDatetime (t : Timestamp) : Timestamp := t

/-- Models pd.to_datetime on an already-date-valued cell: the identity on
values (the source call only coerces the dtype). -/
def toDatetimeDate (d : Date) : Date := d

/-- A row of the transactions table as produced by the transform collaborator,
before the rename at lines 53-57: columns timestamp, amount_eur,
exchange_rate still carry their raw names. -/
structure RawTransactionRow where
  transaction_id : Nat
  transaction_key : Int
  customer_id : Nat
  timestamp : Timestamp
  amount_eur : ℚ
  exchange_rate : ℚ
  transaction_currency : String
  category : String
deriving DecidableEq

/-- A transaction row after the Normalizer (lines 53-69): renamed columns,
parsed timestamp, derived transaction_date, and the high-value flag. -/
structure NormalizedRow where
  transaction_id : Nat
  transaction_key : Int
  customer_id : Nat
  transaction_timestamp : Timestamp
  transaction_amount_eur : ℚ
  current_exchange_rate : ℚ
  transaction_currency : String
  category : String
  transaction_date : Date
  is_high_value_transaction : Int
deriving DecidableEq

/-- The Normalizer on one row: the rename at lines 53-57, the timestamp
parse at lines 59-61, the date derivation at lines 63-65, and the
high-value flag (amount_eur greater than 500, as 0/1) at lines 67-69. -/
def normalizeRow (t : RawTransactionRow) : NormalizedRow :=
  { transaction_id := t.transaction_id
    transaction_key := t.transaction_key
    customer_id := t.customer_id
    transaction_timestamp := toDatetime t.timestamp
    transaction_amount_eur := t.amount_eur
    current_exchange_rate := t.exchange_rate
    transaction_currency := t.transaction_currency
    category := t.category
    transaction_date := (toDatetime t.timestamp).date
    is_high_value_transaction := if t.amount_eur > 500 then 1 else 0 }

/-- A row of the SCD2 customer dimension.  Every cell that pandas lets be
null is an Option; in particular effective_to is null for the current
version of a customer. -/
structure DimCustomerRow where
  customer_id : Nat
  customer_key : Option Int
  effective_from : Option Date
  effective_to : Option Date
deriving DecidableEq

/-- A row of the static currency dimension. -/
structure DimCurrencyRow where
  transaction_currency : String
  currency_key : Option Int
deriving DecidableEq

/-- A row of the static category dimension. -/
structure DimCategoryRow where
  category : String
  category_key : Option Int
deriving DecidableEq

/-- A row of the static date dimension. -/
structure DimDateRow where
  date : Date
  date_key : Option Int
deriving DecidableEq

/-- The in-place preprocessing of one dim_customer row at lines 76-79:
effective_from is coerced with to_datetime, effective_to is coerced and its
nulls are filled with the far-future sentinel. -/
def prepCustomerRow (c : DimCustomerRow) : DimCustomerRow :=
  { c with
    effective_from := c.effective_from.map toDatetimeDate
    effective_to := some ((c.effective_to.map toDatetimeDate).getD farFuture) }

/-- Lines 76-79 applied to the whole dim_customer table.  Because the source
assigns the coerced columns back into the caller-owned DataFrame, this is
the state of dim_customer after any run. -/
def prepCustomerDim (cs : List DimCustomerRow) : List DimCustomerRow :=
  cs.map prepCustomerRow

/-- Line 128: dim_date["date"] coerced with to_datetime, again written back
into the caller-owned DataFrame (value-identity in this embedding). -/
def prepDateDim (ds : List DimDateRow) : List DimDateRow :=
  ds.map (fun d => { d with date := toDatetimeDate d.date })

/-- A generic pandas-style left equi-join: every left row with no key match
yields a single row joined against a null right side; otherwise one row per
matching right row. -/
def leftJoin {α β γ κ : Type} [DecidableEq κ]
    (keyL : α → κ) (keyR : β → κ) (mk : α → Option β → γ)
    (rows : List α) (dim : List β) : List γ :=
  rows.flatMap (fun r =>
    if (dim.filter (fun d => decide (keyR d = keyL r))).isEmpty then
      [mk r none]
    else
      (dim.filter (fun d => decide (keyR d = keyL r))).map
        (fun d => mk r (some d)))

/-- A transaction row after the left merge with dim_customer at lines 86-90:
the customer columns are null when the customer_id had no match. -/
structure MergedRow extends NormalizedRow where
  customer_key : Option Int
  effective_from : Option Date
  effective_to : Option Date
deriving DecidableEq

/-- How the merge at lines 86-90 fills the customer columns of one output
row: from the matched dim_customer row, or null when there was no match. -/
def mkMergedRow (t : NormalizedRow) (c : Option DimCustomerRow) : MergedRow :=
  { toNormalizedRow := t
    customer_key := c.bind (fun x => x.customer_key)
    effective_from := c.bind (fun x => x.effective_from)
    effective_to := c.bind (fun x => x.effective_to) }

/-- The left merge of transactions with dim_customer on customer_id
(lines 86-90). -/
def scd2Merge (ts : List NormalizedRow) (dim : List DimCustomerRow) :
    List MergedRow :=
  leftJoin (fun t => t.customer_id) (fun c => c.customer_id) mkMergedRow ts dim

/-- A pandas comparison between two nullable dates: false whenever either
side is null (NaT), as in the filter at lines 93-96. -/
def nullableLE (a b : Option Date) : Bool :=
  match a, b with
  | some x, some y => decide (x ≤ y)
  | _, _ => false

/-- The row predicate of the interval filter at lines 93-96:
effective_from less-or-equal transaction_date and transaction_date
less-or-equal effective_to, with null comparisons false. -/
def survivesFilter (r : MergedRow) : Bool :=
  nullableLE r.effective_from (some r.transaction_date) &&
    nullableLE (some r.transaction_date) r.effective_to

/-- Whether a (preprocessed) customer version covers a given date, i.e.
whether the interval filter would keep a merged row built from it. -/
def coversB (c : DimCustomerRow) (d : Date) : Bool :=
  nullableLE c.effective_from (some d) && nullableLE (some d) c.effective_to

/-- The interval filter at lines 93-96. -/
def intervalFilter (rows : List MergedRow) : List MergedRow :=
  rows.filter survivesFilter

/-- The transaction_id column of the working table. -/
def transactionIds (rows : List MergedRow) : List Nat :=
  rows.map (fun r => r.transaction_id)

/-- The groupby("transaction_id").size() series at line 99: one count per
distinct transaction_id present in the table. -/
def groupSizes (rows : List MergedRow) : List Nat :=
  ((transactionIds rows).dedup).map (fun i => (transactionIds rows).count i)

/-- The assert condition at line 99: the maximum group size equals 1.  On an
empty table pandas yields NaN for the maximum and the comparison with 1 is
false, which the none case models. -/
def scd2CheckPasses (rows : List MergedRow) : Bool :=
  (groupSizes rows).max? == some 1

/-- A transaction row after the column drop at lines 103-105: customer_id,
effective_from and effective_to are gone, the resolved customer_key stays. -/
structure ResolvedRow where
  transaction_id : Nat
  transaction_key : Int
  transaction_timestamp : Timestamp
  transaction_amount_eur : ℚ
  current_exchange_rate : ℚ
  transaction_currency : String
  category : String
  transaction_date : Date
  is_high_value_transaction : Int
  customer_key : Option Int
deriving DecidableEq

/-- The drop of the SCD bookkeeping columns at lines 103-105. -/
def dropScdColumns (m : MergedRow) : ResolvedRow :=
  { transaction_id := m.transaction_id
    transaction_key := m.transaction_key
    transaction_timestamp := m.transaction_timestamp
    transaction_amount_eur := m.transaction_amount_eur
    current_exchange_rate := m.current_exchange_rate
    transaction_currency := m.transaction_currency
    category := m.category
    transaction_date := m.transaction_date
    is_high_value_transaction := m.is_high_value_transaction
    customer_key := m.customer_key }

/-- The errors the pipeline can abort with: the SCD2 resolution assert at
lines 99-100, a pandas MergeError from a validated merge at lines 112-136,
and the four final integrity asserts at lines 155-162. -/
inductive FactError where
  | scd2Resolution : FactError
  | mergeNotManyToOne : String → FactError
  | missingKey : String → FactError
deriving DecidableEq

/-- The human-readable message attached to each abort in the source. -/
def errorMessage : FactError → String
  | FactError.scd2Resolution =>
      "SCD2 resolution failed: duplicate customer versions detected."
  | FactError.mergeNotManyToOne t =>
      "Merge keys are not unique in right dataset " ++ t
  | FactError.missingKey c => "Missing " ++ c ++ " detected."

/-- A row after the currency merge at lines 112-117. -/
structure WithCurrencyRow extends ResolvedRow where
  currency_key : Option Int
deriving DecidableEq

/-- A row after the category merge at lines 120-125. -/
structure WithCategoryRow extends WithCurrencyRow where
  category_key : Option Int
deriving DecidableEq

/-- A row after the date merge at lines 130-136: pandas keeps the right-side
date column next to the new date_key. -/
structure WithDateRow extends WithCategoryRow where
  date : Option Date
  date_key : Option Int
deriving DecidableEq

/-- Output-row construction of the currency merge. -/
def mkWithCurrency (r : ResolvedRow) (d : Option DimCurrencyRow) :
    WithCurrencyRow :=
  { toResolvedRow := r, currency_key := d.bind (fun x => x.currency_key) }

/-- Output-row construction of the category merge. -/
def mkWithCategory (r : WithCurrencyRow) (d : Option DimCategoryRow) :
    WithCategoryRow :=
  { toWithCurrencyRow := r, category_key := d.bind (fun x => x.category_key) }

/-- Output-row construction of the date merge. -/
def mkWithDate (r : WithCategoryRow) (d : Option DimDateRow) : WithDateRow :=
  { toWithCategoryRow := r
    date := d.map (fun x => x.date)
    date_key := d.bind (fun x => x.date_key) }

/-- The validated left merge with dim_currency at lines 112-117: the
many_to_one validation raises a MergeError when the right keys are not
unique, otherwise a left join on transaction_currency. -/
def mergeCurrency (rows : List ResolvedRow) (dim : List DimCurrencyRow) :
    Except FactError (List WithCurrencyRow) :=
  if (dim.map (fun d => d.transaction_currency)).Nodup then
    Except.ok (leftJoin (fun r => r.transaction_currency)
      (fun d => d.transaction_currency) mkWithCurrency rows dim)
  else Except.error (FactError.mergeNotManyToOne "dim_currency")

/-- The validated left merge with dim_category at lines 120-125. -/
def mergeCategory (rows : List WithCurrencyRow) (dim : List DimCategoryRow) :
    Except FactError (List WithCategoryRow) :=
  if (dim.map (fun d => d.category)).Nodup then
    Except.ok (leftJoin (fun r => r.category)
      (fun d => d.category) mkWithCategory rows dim)
  else Except.error (FactError.mergeNotManyToOne "dim_category")

/-- The validated left merge with dim_date at lines 130-136, joining the
transaction_date column against the date column of the dimension. -/
def mergeDate (rows : List WithCategoryRow) (dim : List DimDateRow) :
    Except FactError (List WithDateRow) :=
  if (dim.map (fun d => d.date)).Nodup then
    Except.ok (leftJoin (fun r => r.transaction_date)
      (fun d => d.date) mkWithDate rows dim)
  else Except.error (FactError.mergeNotManyToOne "dim_date")

/-- A row of the published fact table, the ten projected columns of
lines 141-152 in their order. -/
structure FactRow where
  transaction_id : Nat
  transaction_key : Int
  customer_key : Option Int
  currency_key : Option Int
  category_key : Option Int
  date_key : Option Int
  transaction_timestamp : Timestamp
  transaction_amount_eur : ℚ
  current_exchange_rate : ℚ
  is_high_value_transaction : Int
deriving DecidableEq

/-- The projection at lines 141-152. -/
def projectFactRow (r : WithDateRow) : FactRow :=
  { transaction_id := r.transaction_id
    transaction_key := r.transaction_key
    customer_key := r.customer_key
    currency_key := r.currency_key
    category_key := r.category_key
    date_key := r.date_key
    transaction_timestamp := r.transaction_timestamp
    transaction_amount_eur := r.transaction_amount_eur
    current_exchange_rate := r.current_exchange_rate
    is_high_value_transaction := r.is_high_value_transaction }

/-- The column list of the projection at lines 141-152, which is also the
header of the written artifact. -/
def factColumns : List String :=
  ["transaction_id", "transaction_key", "customer_key", "currency_key",
   "category_key", "date_key", "transaction_timestamp",
   "transaction_amount_eur", "current_exchange_rate",
   "is_high_value_transaction"]

/-- The four integrity asserts at lines 155-162, in source order; the first
failing one determines the abort. -/
def firstNullKeyError (fact : List FactRow) : Option FactError :=
  if fact.any (fun r => r.customer_key.isNone) then
    some (FactError.missingKey "customer_key")
  else if fact.any (fun r => r.currency_key.isNone) then
    some (FactError.missingKey "currency_key")
  else if fact.any (fun r => r.category_key.isNone) then
    some (FactError.missingKey "category_key")
  else if fact.any (fun r => r.date_key.isNone) then
    some (FactError.missingKey "date_key")
  else none

/-- The working table right after the interval filter (lines 86-96), i.e.
the table the SCD2 assert at line 99 inspects. -/
def survivors (transactions_df : List RawTransactionRow)
    (dim_customer : List DimCustomerRow) : List MergedRow :=
  intervalFilter (scd2Merge (transactions_df.map normalizeRow)
    (prepCustomerDim dim_customer))

/-- The pipeline from the Normalizer through the projection at lines 141-152,
i.e. the fact table candidate handed to the final integrity asserts, or the
first abort on the way there. -/
def factCandidate (transactions_df : List RawTransactionRow)
    (dim_customer : List DimCustomerRow) (dim_currency : List DimCurrencyRow)
    (dim_category : List DimCategoryRow) (dim_date : List DimDateRow) :
    Except FactError (List FactRow) :=
  if scd2CheckPasses (survivors transactions_df dim_customer) then
    match mergeCurrency ((survivors transactions_df dim_customer).map
        dropScdColumns) dim_currency with
    | Except.error e => Except.error e
    | Except.ok rows2 =>
      match mergeCategory rows2 dim_category with
      | Except.error e => Except.error e
      | Except.ok rows3 =>
        match mergeDate rows3 (prepDateDim dim_date) with
        | Except.error e => Except.error e
        | Except.ok rows4 => Except.ok (rows4.map projectFactRow)
  else Except.error FactError.scd2Resolution

/-- The observable outcome of one call of build_fact_transactions: the
returned value or the abort, the written artifact (header and rows; none
when the run aborted before line 167), and the final state of the four
dimension tables the caller passed in. -/
structure RunResult where
  result : Except FactError (List FactRow)
  written : Option (List String × List FactRow)
  dim_customer : List DimCustomerRow
  dim_currency : List DimCurrencyRow
  dim_category : List DimCategoryRow
  dim_date : List DimDateRow

/-- The whole of build_fact_transactions (lines 34-174): the staged pipeline,
the final integrity asserts, and the write at line 167 that only a fully
validated run reaches.  The dim_customer and dim_date tables come back in
their preprocessed (mutated) state, dim_currency and dim_category untouched. -/
def build_fact_transactions (transactions_df : List RawTransactionRow)
    (dim_customer : List DimCustomerRow) (dim_currency : List DimCurrencyRow)
    (dim_category : List DimCategoryRow) (dim_date : List DimDateRow) :
    RunResult :=
  match factCandidate transactions_df dim_customer dim_currency dim_category
      dim_date with
  | Except.error e =>
    { result := Except.error e, written := none
      dim_customer := prepCustomerDim dim_customer
      dim_currency := dim_currency, dim_category := dim_category
      dim_date := prepDateDim dim_date }
  | Except.ok fact =>
    match firstNullKeyError fact with
    | some e =>
      { result := Except.error e, written := none
        dim_customer := prepCustomerDim dim_customer
        dim_currency := dim_currency, dim_category := dim_category
        dim_date := prepDateDim dim_date }
    | none =>
      { result := Except.ok fact, written := some (factColumns, fact)
        dim_customer := prepCustomerDim dim_customer
        dim_currency := dim_currency, dim_category := dim_category
        dim_date := prepDateDim dim_date }

/-- Whether a run completed without an abort. -/
def runSucceeded (r : RunResult) : Bool :=
  match r.result with
  | Except.ok _ => true
  | Except.error _ => false

/-- The fact table of a completed run, empty on an abort. -/
def factOutput (r : RunResult) : List FactRow :=
  match r.result with
  | Except.ok f => f
  | Except.error _ => []

/-- The number of null currency_key cells on the table the final asserts
inspect, zero when the run aborted earlier. -/
def candidateNullCurrencyCount (transactions_df : List RawTransactionRow)
    (dim_customer : List DimCustomerRow) (dim_currency : List DimCurrencyRow)
    (dim_category : List DimCategoryRow) (dim_date : List DimDateRow) : Nat :=
  match factCandidate transactions_df dim_customer dim_currency dim_category
      dim_date with
  | Except.ok f => f.countP (fun r => r.currency_key.isNone)
  | Except.error _ => 0

/-- What it means for an abort value of the final integrity checks to name a
key column that really contains a null on the validated table. -/
def errorReportsFailingColumn (e : FactError) (fact : List FactRow) : Prop :=
  (e = FactError.missingKey "customer_key" ∧
      fact.any (fun r => r.customer_key.isNone) = true) ∨
    (e = FactError.missingKey "currency_key" ∧
      fact.any (fun r => r.currency_key.isNone) = true) ∨
    (e = FactError.missingKey "category_key" ∧
      fact.any (fun r => r.category_key.isNone) = true) ∨
    (e = FactError.missingKey "date_key" ∧
      fact.any (fun r => r.date_key.isNone) = true)

/-! Concrete fixtures used to instantiate the theorems below.  All amounts
are integral so that every run evaluates inside the kernel. -/

/-- A transaction of customer 1 dated 2024-06-15 in the reference currency. -/
def sampleTransaction : RawTransactionRow :=
  { transaction_id := 1, transaction_key := 11, customer_id := 1
    timestamp := { date := 20240615, seconds := 3600 }
    amount_eur := 100, exchange_rate := 1
    transaction_currency := "EUR", category := "food" }

/-- A customer version: customer 1, key 100, valid 2024-01-01 to
2024-06-30. -/
def sampleCustomerVersion : DimCustomerRow :=
  { customer_id := 1, customer_key := some 100
    effective_from := some 20240101, effective_to := some 20240630 }

/-- A single-version customer dimension. -/
def sampleDimCustomer : List DimCustomerRow := [sampleCustomerVersion]

/-- A one-row currency dimension. -/
def sampleDimCurrency : List DimCurrencyRow :=
  [{ transaction_currency := "EUR", currency_key := some 1 }]

/-- A one-row category dimension. -/
def sampleDimCategory : List DimCategoryRow :=
  [{ category := "food", category_key := some 10 }]

/-- A date dimension covering the dates of the fixtures. -/
def sampleDimDate : List DimDateRow :=
  [{ date := 20240615, date_key := some 615 },
   { date := 20240620, date_key := some 620 }]

/-- The fact row the pipeline produces for sampleTransaction. -/
def sampleFactRow : FactRow :=
  { transaction_id := 1, transaction_key := 11, customer_key := some 100
    currency_key := some 1, category_key := some 10, date_key := some 615
    transaction_timestamp := { date := 20240615, seconds := 3600 }
    transaction_amount_eur := 100, current_exchange_rate := 1
    is_high_value_transaction := 0 }

/-- A transaction of customer 1 dated 2024-09-01, outside the only validity
interval of sampleDimCustomer: a coverage gap. -/
def gapTransaction : RawTransactionRow :=
  { transaction_id := 2, transaction_key := 12, customer_id := 1
    timestamp := { date := 20240901, seconds := 0 }
    amount_eur := 40, exchange_rate := 1
    transaction_currency := "EUR", category := "food" }

/-- One covered transaction next to one coverage-gap transaction. -/
def gapTransactions : List RawTransactionRow :=
  [sampleTransaction, gapTransaction]

/-- Two versions of customer 1 with overlapping validity intervals, both
containing 2024-06-15. -/
def overlapDimCustomer : List DimCustomerRow :=
  [{ customer_id := 1, customer_key := some 100
     effective_from := some 20240101, effective_to := some 20240630 },
   { customer_id := 1, customer_key := some 102
     effective_from := some 20240601, effective_to := some 20241231 }]

/-- The SCD2 scenario of the spec: customer 1 with version V1 of key 100
valid 2024-01-01 to 2024-06-30 and version V2 of key 101 valid 2024-07-01
to 2099-12-31. -/
def scenarioDimCustomer : List DimCustomerRow :=
  [{ customer_id := 1, customer_key := some 100
     effective_from := some 20240101, effective_to := some 20240630 },
   { customer_id := 1, customer_key := some 101
     effective_from := some 20240701, effective_to := some 20991231 }]

/-- Three transactions of customer 1 dated 2024-06-15, 2024-07-02 and
2024-12-25. -/
def scenarioTransactions : List RawTransactionRow :=
  [{ transaction_id := 1, transaction_key := 11, customer_id := 1
     timestamp := { date := 20240615, seconds := 0 }
     amount_eur := 100, exchange_rate := 1
     transaction_currency := "EUR", category := "food" },
   { transaction_id := 2, transaction_key := 12, customer_id := 1
     timestamp := { date := 20240702, seconds := 0 }
     amount_eur := 200, exchange_rate := 1
     transaction_currency := "EUR", category := "food" },
   { transaction_id := 3, transaction_key := 13, customer_id := 1
     timestamp := { date := 20241225, seconds := 0 }
     amount_eur := 300, exchange_rate := 1
     transaction_currency := "EUR", category := "food" }]

/-- A date dimension covering the scenario dates. -/
def scenarioDimDate : List DimDateRow :=
  [{ date := 20240615, date_key := some 615 },
   { date := 20240702, date_key := some 702 },
   { date := 20241225, date_key := some 1225 }]

/-- A transaction in a currency absent from sampleDimCurrency. -/
def usdTransaction : RawTransactionRow :=
  { transaction_id := 1, transaction_key := 11, customer_id := 1
    timestamp := { date := 20240615, seconds := 0 }
    amount_eur := 100, exchange_rate := 1
    transaction_currency := "USD", category := "food" }

/-- A second transaction in the same unmatched currency, dated 2024-06-20. -/
def usdTransactionB : RawTransactionRow :=
  { transaction_id := 2, transaction_key := 12, customer_id := 1
    timestamp := { date := 20240620, seconds := 0 }
    amount_eur := 150, exchange_rate := 1
    transaction_currency := "USD", category := "food" }

/-- The fact candidate row of usdTransaction: a null currency_key. -/
def usdFactRow : FactRow :=
  { transaction_id := 1, transaction_key := 11, customer_key := some 100
    currency_key := none, category_key := some 10, date_key := some 615
    transaction_timestamp := { date := 20240615, seconds := 0 }
    transaction_amount_eur := 100, current_exchange_rate := 1
    is_high_value_transaction := 0 }

/-- The fact candidate row of usdTransactionB: a null currency_key. -/
def usdFactRowB : FactRow :=
  { transaction_id := 2, transaction_key := 12, customer_key := some 100
    currency_key := none, category_key := some 10, date_key := some 620
    transaction_timestamp := { date := 20240620, seconds := 0 }
    transaction_amount_eur := 150, current_exchange_rate := 1
    is_high_value_transaction := 0 }

/-- A customer dimension whose only version carries a null customer_key yet
covers 2024-06-15. -/
def nullKeyDimCustomer : List DimCustomerRow :=
  [{ customer_id := 1, customer_key := none
     effective_from := some 20240101, effective_to := some 20240630 }]

/-- A customer dimension with a null (open-ended) effective_to. -/
def openEndedDimCustomer : List DimCustomerRow :=
  [{ customer_id := 1, customer_key := some 100
     effective_from := some 20240101, effective_to := none }]

/-- A currency dimension with a duplicated natural key. -/
def dupDimCurrency : List DimCurrencyRow :=
  [{ transaction_currency := "EUR", currency_key := some 1 },
   { transaction_currency := "EUR", currency_key := some 2 }]

/-- A transaction with the reference amount exactly 500. -/
def boundaryTransaction500 : RawTransactionRow :=
  { transaction_id := 1, transaction_key := 11, customer_id := 1
    timestamp := { date := 20240615, seconds := 0 }
    amount_eur := 500, exchange_rate := 1
    transaction_currency := "EUR", category := "food" }

/-- A transaction with the reference amount 500.01. -/
def boundaryTransaction50001 : RawTransactionRow :=
  { transaction_id := 2, transaction_key := 12, customer_id := 1
    timestamp := { date := 20240615, seconds := 0 }
    amount_eur := 500.01, exchange_rate := 1
    transaction_currency := "EUR", category := "food" }

/-- A resolved transaction row whose currency has no dimension match. -/
def unmatchedResolvedRow : ResolvedRow :=
  { transaction_id := 1, transaction_key := 11
    transaction_timestamp := { date := 20240615, seconds := 0 }
    transaction_amount_eur := 100, current_exchange_rate := 1
    transaction_currency := "USD", category := "food"
    transaction_date := 20240615, is_high_value_transaction := 0
    customer_key := some 100 }

/-! Accessor equations: how each stage transports row fields.  All hold by
unfolding the corresponding row constructor. -/

@[simp] theorem normalizeRow_transaction_id (t : RawTransactionRow) :
    (normalizeRow t).transaction_id = t.transaction_id := rfl

@[simp] theorem normalizeRow_customer_id (t : RawTransactionRow) :
    (normalizeRow t).customer_id = t.customer_id := rfl

@[simp] theorem mkMergedRow_transaction_id (t : NormalizedRow)
    (c : Option DimCustomerRow) :
    (mkMergedRow t c).transaction_id = t.transaction_id := rfl

@[simp] theorem mkMergedRow_customer_key (t : NormalizedRow)
    (c : Option DimCustomerRow) :
    (mkMergedRow t c).customer_key = c.bind (fun x => x.customer_key) := rfl

@[simp] theorem prepCustomerRow_customer_id (c : DimCustomerRow) :
    (prepCustomerRow c).customer_id = c.customer_id := rfl

@[simp] theorem prepCustomerRow_customer_key (c : DimCustomerRow) :
    (prepCustomerRow c).customer_key = c.customer_key := rfl

@[simp] theorem dropScdColumns_transaction_id (m : MergedRow) :
    (dropScdColumns m).transaction_id = m.transaction_id := rfl

@[simp] theorem dropScdColumns_customer_key (m : MergedRow) :
    (dropScdColumns m).customer_key = m.customer_key := rfl

@[simp] theorem mkWithCurrency_toResolvedRow (r : ResolvedRow)
    (d : Option DimCurrencyRow) : (mkWithCurrency r d).toResolvedRow = r := rfl

@[simp] theorem mkWithCategory_toWithCurrencyRow (r : WithCurrencyRow)
    (d : Option DimCategoryRow) :
    (mkWithCategory r d).toWithCurrencyRow = r := rfl

@[simp] theorem mkWithDate_toWithCategoryRow (r : WithCategoryRow)
    (d : Option DimDateRow) : (mkWithDate r d).toWithCategoryRow = r := rfl

@[simp] theorem survivesFilter_matched (t : NormalizedRow)
    (c : DimCustomerRow) :
    survivesFilter (mkMergedRow t (some c)) = coversB c t.transaction_date :=
  rfl

@[simp] theorem survivesFilter_unmatched (t : NormalizedRow) :
    survivesFilter (mkMergedRow t none) = false := rfl

/-- The dim_date preprocessing at line 128 only coerces an already-date
column, so it leaves the table unchanged at the value level. -/
theorem prepDateDim_eq (ds : List DimDateRow) : prepDateDim ds = ds := by
  simp [prepDateDim, toDatetimeDate]

/-! Generic properties of the pandas-style left join. -/

theorem mem_leftJoin {α β γ κ : Type} [DecidableEq κ]
    {keyL : α → κ} {keyR : β → κ} {mk : α → Option β → γ}
    {rows : List α} {dim : List β} {g : γ}
    (h : g ∈ leftJoin keyL keyR mk rows dim) :
    ∃ r ∈ rows, g = mk r none ∨
      ∃ c ∈ dim, keyR c = keyL r ∧ g = mk r (some c) := by
  unfold leftJoin at h
  rw [List.mem_flatMap] at h
  obtain ⟨r, hr, hg⟩ := h
  refine ⟨r, hr, ?_⟩
  split at hg
  · left
    simpa using hg
  · right
    rw [List.mem_map] at hg
    obtain ⟨c, hc, hgc⟩ := hg
    rw [List.mem_filter] at hc
    exact ⟨c, hc.1, of_decide_eq_true hc.2, hgc.symm⟩

theorem leftJoin_mem_of_no_match {α β γ κ : Type} [DecidableEq κ]
    {keyL : α → κ} {keyR : β → κ} {mk : α → Option β → γ}
    {rows : List α} {dim : List β} {r : α}
    (hr : r ∈ rows) (h : ∀ d ∈ dim, ¬ keyR d = keyL r) :
    mk r none ∈ leftJoin keyL keyR mk rows dim := by
  unfold leftJoin
  rw [List.mem_flatMap]
  refine ⟨r, hr, ?_⟩
  have hfil : dim.filter (fun d => decide (keyR d = keyL r)) = [] := by
    rw [List.filter_eq_nil_iff]
    intro d hd
    simpa using h d hd
  rw [hfil]
  simp

theorem length_filter_key_le_one {β κ : Type} [DecidableEq κ]
    (key : β → κ) (l : List β) (h : (l.map key).Nodup) (k : κ) :
    (l.filter (fun d => decide (key d = k))).length ≤ 1 := by
  induction l with
  | nil => simp
  | cons a l ih =>
    rw [List.map_cons, List.nodup_cons] at h
    rw [List.filter_cons]
    by_cases hk : key a = k
    · rw [if_pos (decide_eq_true hk)]
      have hfil : l.filter (fun d => decide (key d = k)) = [] := by
        rw [List.filter_eq_nil_iff]
        intro b hb hbk
        exact h.1 (List.mem_map.mpr
          ⟨b, hb, (of_decide_eq_true hbk).trans hk.symm⟩)
      rw [hfil]
      simp
    · rw [if_neg (by simp [hk])]
      exact ih h.2

theorem leftJoin_length {α β γ κ : Type} [DecidableEq κ]
    (keyL : α → κ) (keyR : β → κ) (mk : α → Option β → γ)
    (rows : List α) (dim : List β) (h : (dim.map keyR).Nodup) :
    (leftJoin keyL keyR mk rows dim).length = rows.length := by
  induction rows with
  | nil => rfl
  | cons r rows ih =>
    have step : leftJoin keyL keyR mk (r :: rows) dim =
        (if (dim.filter (fun d => decide (keyR d = keyL r))).isEmpty then
          [mk r none]
        else (dim.filter (fun d => decide (keyR d = keyL r))).map
          (fun d => mk r (some d))) ++ leftJoin keyL keyR mk rows dim := by
      unfold leftJoin
      rw [List.flatMap_cons]
    rw [step, List.length_append, ih, List.length_cons]
    have hb : (if (dim.filter (fun d => decide (keyR d = keyL r))).isEmpty then
        [mk r none]
      else (dim.filter (fun d => decide (keyR d = keyL r))).map
        (fun d => mk r (some d))).length = 1 := by
      split
      · rfl
      · rename_i hne
        rw [List.length_map]
        have h1 := length_filter_key_le_one keyR dim h (keyL r)
        have h0 : dim.filter (fun d => decide (keyR d = keyL r)) ≠ [] := by
          intro hnil
          rw [hnil] at hne
          simp at hne
        have h2 := List.length_pos.mpr h0
        omega
    omega

/-! The SCD2 cardinality check of line 99 characterized: it passes exactly
when the filtered table is nonempty and no transaction_id occurs twice. -/

theorem max?_nat_eq_some_iff {l : List Nat} {a : Nat} :
    l.max? = some a ↔ a ∈ l ∧ ∀ b ∈ l, b ≤ a := by
  apply List.max?_eq_some_iff
  · exact Nat.le_refl
  · intro a b
    rcases Nat.le_total a b with h | h
    · right
      exact Nat.max_eq_right h
    · left
      exact Nat.max_eq_left h
  · exact fun a b c => Nat.max_le

theorem scd2CheckPasses_iff (rows : List MergedRow) :
    scd2CheckPasses rows = true ↔
      rows ≠ [] ∧ ∀ i, (transactionIds rows).count i ≤ 1 := by
  unfold scd2CheckPasses groupSizes
  rw [beq_iff_eq, max?_nat_eq_some_iff]
  constructor
  · rintro ⟨h1, hall⟩
    rw [List.mem_map] at h1
    obtain ⟨i0, hi0, hc0⟩ := h1
    have hne : rows ≠ [] := by
      intro hnil
      subst hnil
      simp [transactionIds] at hi0
    refine ⟨hne, fun i => ?_⟩
    by_cases hi : i ∈ transactionIds rows
    · exact hall _ (List.mem_map.mpr ⟨i, List.mem_dedup.mpr hi, rfl⟩)
    · rw [List.count_eq_zero.mpr hi]
      omega
  · rintro ⟨hne, hcount⟩
    have hids : transactionIds rows ≠ [] := by
      unfold transactionIds
      rw [ne_eq, List.map_eq_nil_iff]
      exact hne
    obtain ⟨i0, hi0⟩ := List.exists_mem_of_ne_nil _ hids
    constructor
    · rw [List.mem_map]
      refine ⟨i0, List.mem_dedup.mpr hi0, ?_⟩
      have h1 : 1 ≤ (transactionIds rows).count i0 :=
        List.one_le_count_iff.mpr hi0
      have h2 := hcount i0
      omega
    · intro b hb
      rw [List.mem_map] at hb
      obtain ⟨i, hi, hbi⟩ := hb
      rw [← hbi]
      exact hcount i

/-! Shape lemmas for the three validated merges and the pipeline. -/

theorem mergeCurrency_ok_elim {rows : List ResolvedRow}
    {dim : List DimCurrencyRow} {out : List WithCurrencyRow}
    (h : mergeCurrency rows dim = Except.ok out) :
    (dim.map (fun d => d.transaction_currency)).Nodup ∧
      out = leftJoin (fun r => r.transaction_currency)
        (fun d => d.transaction_currency) mkWithCurrency rows dim := by
  unfold mergeCurrency at h
  split at h
  · rename_i hnd
    refine ⟨hnd, ?_⟩
    injection h with h'
    exact h'.symm
  · cases h

theorem mergeCategory_ok_elim {rows : List WithCurrencyRow}
    {dim : List DimCategoryRow} {out : List WithCategoryRow}
    (h : mergeCategory rows dim = Except.ok out) :
    (dim.map (fun d => d.category)).Nodup ∧
      out = leftJoin (fun r => r.category)
        (fun d => d.category) mkWithCategory rows dim := by
  unfold mergeCategory at h
  split at h
  · rename_i hnd
    refine ⟨hnd, ?_⟩
    injection h with h'
    exact h'.symm
  · cases h

theorem mergeDate_ok_elim {rows : List WithCategoryRow}
    {dim : List DimDateRow} {out : List WithDateRow}
    (h : mergeDate rows dim = Except.ok out) :
    (dim.map (fun d => d.date)).Nodup ∧
      out = leftJoin (fun r => r.transaction_date)
        (fun d => d.date) mkWithDate rows dim := by
  unfold mergeDate at h
  split at h
  · rename_i hnd
    refine ⟨hnd, ?_⟩
    injection h with h'
    exact h'.symm
  · cases h

theorem mergeCurrency_error_shape {rows : List ResolvedRow}
    {dim : List DimCurrencyRow} {e : FactError}
    (h : mergeCurrency rows dim = Except.error e) :
    e = FactError.mergeNotManyToOne "dim_currency" := by
  unfold mergeCurrency at h
  split at h
  · cases h
  · injection h with h'
    exact h'.symm

theorem mergeCategory_error_shape {rows : List WithCurrencyRow}
    {dim : List DimCategoryRow} {e : FactError}
    (h : mergeCategory rows dim = Except.error e) :
    e = FactError.mergeNotManyToOne "dim_category" := by
  unfold mergeCategory at h
  split at h
  · cases h
  · injection h with h'
    exact h'.symm

theorem mergeDate_error_shape {rows : List WithCategoryRow}
    {dim : List DimDateRow} {e : FactError}
    (h : mergeDate rows dim = Except.error e) :
    e = FactError.mergeNotManyToOne "dim_date" := by
  unfold mergeDate at h
  split at h
  · cases h
  · injection h with h'
    exact h'.symm

theorem factCandidate_ok_elim {ts : List RawTransactionRow}
    {dimc : List DimCustomerRow} {dimcur : List DimCurrencyRow}
    {dimcat : List DimCategoryRow} {dimd : List DimDateRow}
    {fact : List FactRow}
    (h : factCandidate ts dimc dimcur dimcat dimd = Except.ok fact) :
    scd2CheckPasses (survivors ts dimc) = true ∧
    ∃ rows2 rows3 rows4,
      mergeCurrency ((survivors ts dimc).map dropScdColumns) dimcur =
        Except.ok rows2 ∧
      mergeCategory rows2 dimcat = Except.ok rows3 ∧
      mergeDate rows3 (prepDateDim dimd) = Except.ok rows4 ∧
      fact = rows4.map projectFactRow := by
  unfold factCandidate at h
  split at h
  · rename_i hpass
    refine ⟨hpass, ?_⟩
    split at h
    · cases h
    · rename_i rows2 h2
      split at h
      · cases h
      · rename_i rows3 h3
        split at h
        · cases h
        · rename_i rows4 h4
          injection h with h'
          exact ⟨rows2, rows3, rows4, h2, h3, h4, h'.symm⟩
  · cases h

theorem factCandidate_scd2_error {ts : List RawTransactionRow}
    {dimc : List DimCustomerRow} {dimcur : List DimCurrencyRow}
    {dimcat : List DimCategoryRow} {dimd : List DimDateRow}
    (h : scd2CheckPasses (survivors ts dimc) = false) :
    factCandidate ts dimc dimcur dimcat dimd =
      Except.error FactError.scd2Resolution := by
  simp [factCandidate, h]

theorem factCandidate_error_shape {ts : List RawTransactionRow}
    {dimc : List DimCustomerRow} {dimcur : List DimCurrencyRow}
    {dimcat : List DimCategoryRow} {dimd : List DimDateRow} {e : FactError}
    (h : factCandidate ts dimc dimcur dimcat dimd = Except.error e) :
    e = FactError.scd2Resolution ∨
      e = FactError.mergeNotManyToOne "dim_currency" ∨
      e = FactError.mergeNotManyToOne "dim_category" ∨
      e = FactError.mergeNotManyToOne "dim_date" := by
  unfold factCandidate at h
  split at h
  · split at h
    · rename_i h2
      injection h with h'
      subst h'
      exact Or.inr (Or.inl (mergeCurrency_error_shape h2))
    · split at h
      · rename_i h3
        injection h with h'
        subst h'
        exact Or.inr (Or.inr (Or.inl (mergeCategory_error_shape h3)))
      · split at h
        · rename_i h4
          injection h with h'
          subst h'
          exact Or.inr (Or.inr (Or.inr (mergeDate_error_shape h4)))
        · cases h
  · injection h with h'
    exact Or.inl h'.symm

theorem build_result_error_of_candidate {ts : List RawTransactionRow}
    {dimc : List DimCustomerRow} {dimcur : List DimCurrencyRow}
    {dimcat : List DimCategoryRow} {dimd : List DimDateRow} {e : FactError}
    (h : factCandidate ts dimc dimcur dimcat dimd = Except.error e) :
    (build_fact_transactions ts dimc dimcur dimcat dimd).result =
      Except.error e := by
  unfold build_fact_transactions
  rw [h]

theorem build_result_ok_elim {ts : List RawTransactionRow}
    {dimc : List DimCustomerRow} {dimcur : List DimCurrencyRow}
    {dimcat : List DimCategoryRow} {dimd : List DimDateRow}
    {fact : List FactRow}
    (h : (build_fact_transactions ts dimc dimcur dimcat dimd).result =
      Except.ok fact) :
    factCandidate ts dimc dimcur dimcat dimd = Except.ok fact ∧
      firstNullKeyError fact = none := by
  unfold build_fact_transactions at h
  split at h
  · simp at h
  · rename_i fact0 heq
    split at h
    · simp at h
    · rename_i heq2
      simp only [Except.ok.injEq] at h
      subst h
      exact ⟨heq, heq2⟩

theorem build_abort_of_nullkey {ts : List RawTransactionRow}
    {dimc : List DimCustomerRow} {dimcur : List DimCurrencyRow}
    {dimcat : List DimCategoryRow} {dimd : List DimDateRow}
    {fact : List FactRow} {e : FactError}
    (h1 : factCandidate ts dimc dimcur dimcat dimd = Except.ok fact)
    (h2 : firstNullKeyError fact = some e) :
    (build_fact_transactions ts dimc dimcur dimcat dimd).result =
        Except.error e ∧
      (build_fact_transactions ts dimc dimcur dimcat dimd).written = none := by
  unfold build_fact_transactions
  rw [h1]
  dsimp only
  rw [h2]
  exact ⟨rfl, rfl⟩

theorem build_written_of_ok {ts : List RawTransactionRow}
    {dimc : List DimCustomerRow} {dimcur : List DimCurrencyRow}
    {dimcat : List DimCategoryRow} {dimd : List DimDateRow}
    {fact : List FactRow}
    (h : (build_fact_transactions ts dimc dimcur dimcat dimd).result =
      Except.ok fact) :
    (build_fact_transactions ts dimc dimcur dimcat dimd).written =
      some (factColumns, fact) := by
  obtain ⟨h1, h2⟩ := build_result_ok_elim h
  unfold build_fact_transactions
  rw [h1]
  dsimp only
  rw [h2]

theorem build_ok_of_candidate {ts : List RawTransactionRow}
    {dimc : List DimCustomerRow} {dimcur : List DimCurrencyRow}
    {dimcat : List DimCategoryRow} {dimd : List DimDateRow}
    {fact : List FactRow}
    (h1 : factCandidate ts dimc dimcur dimcat dimd = Except.ok fact)
    (h2 : firstNullKeyError fact = none) :
    (build_fact_transactions ts dimc dimcur dimcat dimd).result =
      Except.ok fact := by
  unfold build_fact_transactions
  rw [h1]
  dsimp only
  rw [h2]

theorem build_dims (ts : List RawTransactionRow)
    (dimc : List DimCustomerRow) (dimcur : List DimCurrencyRow)
    (dimcat : List DimCategoryRow) (dimd : List DimDateRow) :
    (build_fact_transactions ts dimc dimcur dimcat dimd).dim_customer =
        prepCustomerDim dimc ∧
      (build_fact_transactions ts dimc dimcur dimcat dimd).dim_currency =
        dimcur ∧
      (build_fact_transactions ts dimc dimcur dimcat dimd).dim_category =
        dimcat ∧
      (build_fact_transactions ts dimc dimcur dimcat dimd).dim_date =
        prepDateDim dimd := by
  unfold build_fact_transactions
  split
  · exact ⟨rfl, rfl, rfl, rfl⟩
  · split
    · exact ⟨rfl, rfl, rfl, rfl⟩
    · exact ⟨rfl, rfl, rfl, rfl⟩

theorem mem_survivors {ts : List RawTransactionRow}
    {dimc : List DimCustomerRow} {m : MergedRow}
    (hm : m ∈ survivors ts dimc) :
    ∃ t ∈ ts, ∃ c ∈ dimc,
      m = mkMergedRow (normalizeRow t) (some (prepCustomerRow c)) ∧
      c.customer_id = t.customer_id ∧
      coversB (prepCustomerRow c) (normalizeRow t).transaction_date = true := by
  unfold survivors intervalFilter at hm
  rw [List.mem_filter] at hm
  obtain ⟨hmem, hsurv⟩ := hm
  unfold scd2Merge at hmem
  obtain ⟨tn, htn, hcase⟩ := mem_leftJoin hmem
  rw [List.mem_map] at htn
  obtain ⟨t, ht, htn'⟩ := htn
  subst htn'
  rcases hcase with hnone | ⟨c', hc', hckey, hsome⟩
  · rw [hnone, survivesFilter_unmatched] at hsurv
    cases hsurv
  · unfold prepCustomerDim at hc'
    rw [List.mem_map] at hc'
    obtain ⟨c, hc, hc''⟩ := hc'
    subst hc''
    refine ⟨t, ht, c, hc, hsome, ?_, ?_⟩
    · simpa using hckey
    · rw [hsome, survivesFilter_matched] at hsurv
      exact hsurv

theorem factRow_origin {ts : List RawTransactionRow}
    {dimc : List DimCustomerRow} {dimcur : List DimCurrencyRow}
    {dimcat : List DimCategoryRow} {dimd : List DimDateRow}
    {fact : List FactRow}
    (h : factCandidate ts dimc dimcur dimcat dimd = Except.ok fact)
    {x : FactRow} (hx : x ∈ fact) :
    ∃ m ∈ survivors ts dimc,
      x.transaction_id = m.transaction_id ∧
      x.customer_key = m.customer_key := by
  obtain ⟨-, rows2, rows3, rows4, h2, h3, h4, hfact⟩ := factCandidate_ok_elim h
  subst hfact
  rw [List.mem_map] at hx
  obtain ⟨x4, hx4, hpx⟩ := hx
  obtain ⟨-, hout4⟩ := mergeDate_ok_elim h4
  rw [hout4] at hx4
  obtain ⟨r3, hr3, hcase4⟩ := mem_leftJoin hx4
  have hx4' : x4.toWithCategoryRow = r3 := by
    rcases hcase4 with hcc | ⟨d, -, -, hcc⟩ <;> rw [hcc] <;> rfl
  obtain ⟨-, hout3⟩ := mergeCategory_ok_elim h3
  rw [hout3] at hr3
  obtain ⟨r2, hr2, hcase3⟩ := mem_leftJoin hr3
  have hr3' : r3.toWithCurrencyRow = r2 := by
    rcases hcase3 with hcc | ⟨d, -, -, hcc⟩ <;> rw [hcc] <;> rfl
  obtain ⟨-, hout2⟩ := mergeCurrency_ok_elim h2
  rw [hout2] at hr2
  obtain ⟨r1, hr1, hcase2⟩ := mem_leftJoin hr2
  have hr2' : r2.toResolvedRow = r1 := by
    rcases hcase2 with hcc | ⟨d, -, -, hcc⟩ <;> rw [hcc] <;> rfl
  rw [List.mem_map] at hr1
  obtain ⟨m, hm, hdm⟩ := hr1
  refine ⟨m, hm, ?_, ?_⟩
  · rw [← hpx]
    show x4.toWithCategoryRow.toWithCurrencyRow.toResolvedRow.transaction_id =
      m.transaction_id
    rw [hx4', hr3', hr2', ← hdm]
    rfl
  · rw [← hpx]
    show x4.toWithCategoryRow.toWithCurrencyRow.toResolvedRow.customer_key =
      m.customer_key
    rw [hx4', hr3', hr2', ← hdm]
    rfl

/-! Claim theorems. -/

/-- C1 counterexample: the claim that a transaction dated outside all of its
customer validity intervals makes the run abort with a coverage error is
false.  In the gap fixture, gapTransaction (transaction_id 2, dated
2024-09-01) lies outside the only validity interval of its customer, yet
the run completes successfully and no output row carries its
transaction_id: the transaction is silently dropped. -/
theorem coverage_gap_aborts_run_cex :
    gapTransaction ∈ gapTransactions ∧
    (sampleDimCustomer.all (fun c =>
      !(c.customer_id == gapTransaction.customer_id) ||
        !(coversB (prepCustomerRow c)
          (normalizeRow gapTransaction).transaction_date))) = true ∧
    runSucceeded (build_fact_transactions gapTransactions sampleDimCustomer
      sampleDimCurrency sampleDimCategory sampleDimDate) = true ∧
    ((factOutput (build_fact_transactions gapTransactions sampleDimCustomer
        sampleDimCurrency sampleDimCategory sampleDimDate)).all
      (fun r => !(r.transaction_id == gapTransaction.transaction_id))) =
      true := by
  decide

/-- C1 (amended): a transaction whose transaction_date lies outside every
validity interval of its customer dimension versions (and whose
transaction_id no other input transaction carries) is eliminated by the
interval filter; when the run completes, the output simply contains no row
with its transaction_id.  The pipeline does not abort on such a gap. -/
theorem coverage_gap_silently_dropped
    (ts : List RawTransactionRow) (dimc : List DimCustomerRow)
    (dimcur : List DimCurrencyRow) (dimcat : List DimCategoryRow)
    (dimd : List DimDateRow) (t : RawTransactionRow)
    (ht : t ∈ ts)
    (huniq : ∀ t' ∈ ts, t'.transaction_id = t.transaction_id → t' = t)
    (hgap : ∀ c ∈ dimc, c.customer_id = t.customer_id →
        coversB (prepCustomerRow c) (normalizeRow t).transaction_date = false)
    (fact : List FactRow)
    (hok : (build_fact_transactions ts dimc dimcur dimcat dimd).result =
      Except.ok fact) :
    ∀ row ∈ fact, row.transaction_id ≠ t.transaction_id := by
  intro row hrow hid
  obtain ⟨hcand, -⟩ := build_result_ok_elim hok
  obtain ⟨m, hm, hmid, -⟩ := factRow_origin hcand hrow
  obtain ⟨t0, ht0, c0, hc0, hmeq, hcid, hcov⟩ := mem_survivors hm
  have hmid0 : m.transaction_id = t0.transaction_id := by
    rw [hmeq]
    simp
  have ht0t : t0 = t := huniq t0 ht0 (by rw [← hmid0, ← hmid, hid])
  subst ht0t
  have hfalse := hgap c0 hc0 hcid
  rw [hfalse] at hcov
  cases hcov

/-- C1 amended-claim witness: at the gap fixture the run completes with a
single output row, whose transaction_id differs from the dropped one. -/
theorem coverage_gap_silently_dropped_witness :
    sampleFactRow.transaction_id ≠ gapTransaction.transaction_id :=
  coverage_gap_silently_dropped gapTransactions sampleDimCustomer
    sampleDimCurrency sampleDimCategory sampleDimDate gapTransaction
    (by decide) (by decide) (by decide) [sampleFactRow] rfl
    sampleFactRow (by decide)

/-- C2 counterexample: the claimed equivalence fails in one direction: in
the gap fixture the run completes, yet input transaction_id 2 has zero
surviving rows after the interval filter, not exactly one. -/
theorem exactly_one_surviving_row_cex :
    gapTransaction ∈ gapTransactions ∧
    runSucceeded (build_fact_transactions gapTransactions sampleDimCustomer
      sampleDimCurrency sampleDimCategory sampleDimDate) = true ∧
    (transactionIds (survivors gapTransactions sampleDimCustomer)).count
      gapTransaction.transaction_id = 0 := by
  decide

/-- C2 (amended): a transaction matched by more than one customer version
(its transaction_id has at least two surviving rows) makes the run abort
with the SCD2 resolution error rather than pick a version; and whenever the
run completes, every transaction_id that appears in the filtered table has
exactly one surviving row (transactions with zero surviving rows are
silently absent, not detected). -/
theorem overlap_aborts_run
    (ts : List RawTransactionRow) (dimc : List DimCustomerRow)
    (dimcur : List DimCurrencyRow) (dimcat : List DimCategoryRow)
    (dimd : List DimDateRow) :
    (∀ i : Nat, 2 ≤ (transactionIds (survivors ts dimc)).count i →
        (build_fact_transactions ts dimc dimcur dimcat dimd).result =
          Except.error FactError.scd2Resolution) ∧
    (∀ fact, (build_fact_transactions ts dimc dimcur dimcat dimd).result =
        Except.ok fact →
      ∀ i ∈ transactionIds (survivors ts dimc),
        (transactionIds (survivors ts dimc)).count i = 1) := by
  constructor
  · intro i hi
    have hfail : scd2CheckPasses (survivors ts dimc) = false := by
      cases hcp : scd2CheckPasses (survivors ts dimc)
      · rfl
      · obtain ⟨-, hcount⟩ := (scd2CheckPasses_iff _).mp hcp
        have := hcount i
        omega
    exact build_result_error_of_candidate (factCandidate_scd2_error hfail)
  · intro fact hok i hi
    obtain ⟨hcand, -⟩ := build_result_ok_elim hok
    obtain ⟨hpass, -⟩ := factCandidate_ok_elim hcand
    obtain ⟨-, hcount⟩ := (scd2CheckPasses_iff _).mp hpass
    have h1 := hcount i
    have h2 := List.one_le_count_iff.mpr hi
    omega

/-- C2 witness: with two overlapping versions of customer 1 both covering
2024-06-15, the run aborts with the SCD2 resolution error. -/
theorem overlap_aborts_run_witness :
    (build_fact_transactions [sampleTransaction] overlapDimCustomer
        sampleDimCurrency sampleDimCategory sampleDimDate).result =
      Except.error FactError.scd2Resolution :=
  (overlap_aborts_run [sampleTransaction] overlapDimCustomer
      sampleDimCurrency sampleDimCategory sampleDimDate).1 1 (by decide)

/-- C3: the temporal filter keeps a matched row exactly when
effective_from is at most the transaction date and the transaction date is
at most effective_to, inclusive on both bounds; and on the scenario of the
spec the three transactions dated 2024-06-15, 2024-07-02 and 2024-12-25
resolve to customer keys 100, 101 and 101. -/
theorem temporal_filter_inclusive_bounds
    (t : NormalizedRow) (c : DimCustomerRow) (f e : Date)
    (h1 : c.effective_from = some f) (h2 : c.effective_to = some e) :
    (survivesFilter (mkMergedRow t (some c)) = true ↔
      f ≤ t.transaction_date ∧ t.transaction_date ≤ e) ∧
    (factOutput (build_fact_transactions scenarioTransactions
        scenarioDimCustomer sampleDimCurrency sampleDimCategory
        scenarioDimDate)).map (fun r => (r.transaction_id, r.customer_key)) =
      [(1, some 100), (2, some 101), (3, some 101)] := by
  constructor
  · rw [survivesFilter_matched]
    simp [coversB, nullableLE, h1, h2]
  · decide

/-- C3 witness: the filter equivalence instantiated at the sample
transaction and the sample customer version. -/
theorem temporal_filter_inclusive_bounds_witness :
    (survivesFilter (mkMergedRow (normalizeRow sampleTransaction)
        (some sampleCustomerVersion)) = true ↔
      (20240101 : Date) ≤ (normalizeRow sampleTransaction).transaction_date ∧
        (normalizeRow sampleTransaction).transaction_date ≤ 20240630) ∧
    (factOutput (build_fact_transactions scenarioTransactions
        scenarioDimCustomer sampleDimCurrency sampleDimCategory
        scenarioDimDate)).map (fun r => (r.transaction_id, r.customer_key)) =
      [(1, some 100), (2, some 101), (3, some 101)] :=
  temporal_filter_inclusive_bounds (normalizeRow sampleTransaction)
    sampleCustomerVersion 20240101 20240630 rfl rfl

/-- C4 counterexample: the claim that the abort reports the count of
affected rows is false.  Two runs whose validated tables hold one and two
null currency keys abort with the identical error value, whose message is
the fixed string of the source assert; an error value that is the same for
different counts cannot report the count. -/
theorem nullkey_error_reports_count_cex :
    candidateNullCurrencyCount [usdTransaction] sampleDimCustomer
        sampleDimCurrency sampleDimCategory sampleDimDate = 1 ∧
    candidateNullCurrencyCount [usdTransaction, usdTransactionB]
        sampleDimCustomer sampleDimCurrency sampleDimCategory
        sampleDimDate = 2 ∧
    (build_fact_transactions [usdTransaction] sampleDimCustomer
        sampleDimCurrency sampleDimCategory sampleDimDate).result =
      Except.error (FactError.missingKey "currency_key") ∧
    (build_fact_transactions [usdTransaction, usdTransactionB]
        sampleDimCustomer sampleDimCurrency sampleDimCategory
        sampleDimDate).result =
      Except.error (FactError.missingKey "currency_key") ∧
    errorMessage (FactError.missingKey "currency_key") =
      "Missing currency_key detected." := by
  exact ⟨by decide, by decide, rfl, rfl, rfl⟩

/-- C4 (amended): if any of the four key columns holds a null after all
resolutions, the run aborts before the artifact is written and the error
names the first failing key column in the fixed check order; the count of
affected rows is not part of the error. -/
theorem nullkey_abort_before_write
    (ts : List RawTransactionRow) (dimc : List DimCustomerRow)
    (dimcur : List DimCurrencyRow) (dimcat : List DimCategoryRow)
    (dimd : List DimDateRow) (fact : List FactRow) (e : FactError)
    (h1 : factCandidate ts dimc dimcur dimcat dimd = Except.ok fact)
    (h2 : firstNullKeyError fact = some e) :
    (build_fact_transactions ts dimc dimcur dimcat dimd).result =
        Except.error e ∧
      (build_fact_transactions ts dimc dimcur dimcat dimd).written = none ∧
      errorReportsFailingColumn e fact := by
  obtain ⟨hr, hw⟩ := build_abort_of_nullkey h1 h2
  refine ⟨hr, hw, ?_⟩
  unfold firstNullKeyError at h2
  split_ifs at h2 with hc1 hc2 hc3 hc4
  · injection h2 with h'
    exact Or.inl ⟨h'.symm, hc1⟩
  · injection h2 with h'
    exact Or.inr (Or.inl ⟨h'.symm, hc2⟩)
  · injection h2 with h'
    exact Or.inr (Or.inr (Or.inl ⟨h'.symm, hc3⟩))
  · injection h2 with h'
    exact Or.inr (Or.inr (Or.inr ⟨h'.symm, hc4⟩))

/-- C4 witness: the unmatched-currency fixture aborts before the write and
its error names the currency_key column. -/
theorem nullkey_abort_before_write_witness :
    (build_fact_transactions [usdTransaction] sampleDimCustomer
        sampleDimCurrency sampleDimCategory sampleDimDate).result =
        Except.error (FactError.missingKey "currency_key") ∧
      (build_fact_transactions [usdTransaction] sampleDimCustomer
        sampleDimCurrency sampleDimCategory sampleDimDate).written = none ∧
      errorReportsFailingColumn (FactError.missingKey "currency_key")
        [usdFactRow] :=
  nullkey_abort_before_write [usdTransaction] sampleDimCustomer
    sampleDimCurrency sampleDimCategory sampleDimDate [usdFactRow]
    (FactError.missingKey "currency_key") rfl rfl

/-- C5: the Normalizer sets the high-value flag to 1 exactly when the
amount exceeds 500 strictly, to 0 otherwise (the flag only takes the
integer values 0 and 1), and at the boundary an amount of exactly 500
yields 0 while 500.01 yields 1. -/
theorem high_value_flag_strict_boundary :
    (∀ t : RawTransactionRow,
        ((normalizeRow t).is_high_value_transaction = 1 ↔
          t.amount_eur > 500) ∧
        ((normalizeRow t).is_high_value_transaction = 0 ↔
          ¬ t.amount_eur > 500) ∧
        ((normalizeRow t).is_high_value_transaction = 0 ∨
          (normalizeRow t).is_high_value_transaction = 1)) ∧
    (normalizeRow boundaryTransaction500).is_high_value_transaction = 0 ∧
    (normalizeRow boundaryTransaction50001).is_high_value_transaction = 1 := by
  refine ⟨fun t => ?_, ?_, ?_⟩
  · unfold normalizeRow
    dsimp only
    by_cases h : t.amount_eur > 500
    · rw [if_pos h]
      exact ⟨by simp [h], by simp [h], Or.inr rfl⟩
    · rw [if_neg h]
      exact ⟨by simp [h], by simp [h], Or.inl rfl⟩
  · show (if (500 : ℚ) > 500 then (1 : Int) else 0) = 0
    rw [if_neg (by norm_num)]
  · show (if (500.01 : ℚ) > 500 then (1 : Int) else 0) = 1
    rw [if_pos (by norm_num)]

/-- C6: a duplicated natural key in any of the three static dimensions
makes the corresponding validated merge fail with a MergeError at join
time, and a run over such a dimension can never complete. -/
theorem duplicate_dimension_keys_fatal :
    (∀ (rows : List ResolvedRow) (dim : List DimCurrencyRow),
        ¬ (dim.map (fun d => d.transaction_currency)).Nodup →
        mergeCurrency rows dim =
          Except.error (FactError.mergeNotManyToOne "dim_currency")) ∧
    (∀ (rows : List WithCurrencyRow) (dim : List DimCategoryRow),
        ¬ (dim.map (fun d => d.category)).Nodup →
        mergeCategory rows dim =
          Except.error (FactError.mergeNotManyToOne "dim_category")) ∧
    (∀ (rows : List WithCategoryRow) (dim : List DimDateRow),
        ¬ (dim.map (fun d => d.date)).Nodup →
        mergeDate rows dim =
          Except.error (FactError.mergeNotManyToOne "dim_date")) ∧
    (∀ (ts : List RawTransactionRow) (dimc : List DimCustomerRow)
        (dimcur : List DimCurrencyRow) (dimcat : List DimCategoryRow)
        (dimd : List DimDateRow),
        (¬ (dimcur.map (fun d => d.transaction_currency)).Nodup ∨
          ¬ (dimcat.map (fun d => d.category)).Nodup ∨
          ¬ (dimd.map (fun d => d.date)).Nodup) →
        ∀ fact,
          (build_fact_transactions ts dimc dimcur dimcat dimd).result ≠
            Except.ok fact) := by
  refine ⟨?_, ?_, ?_, ?_⟩
  · intro rows dim h
    unfold mergeCurrency
    rw [if_neg h]
  · intro rows dim h
    unfold mergeCategory
    rw [if_neg h]
  · intro rows dim h
    unfold mergeDate
    rw [if_neg h]
  · intro ts dimc dimcur dimcat dimd h fact hok
    obtain ⟨hcand, -⟩ := build_result_ok_elim hok
    obtain ⟨-, rows2, rows3, rows4, h2, h3, h4, -⟩ :=
      factCandidate_ok_elim hcand
    rcases h with h | h | h
    · exact h (mergeCurrency_ok_elim h2).1
    · exact h (mergeCategory_ok_elim h3).1
    · have hnd := (mergeDate_ok_elim h4).1
      rw [prepDateDim_eq] at hnd
      exact h hnd

/-- C6 witness: a currency dimension listing EUR twice makes the currency
merge fail with the MergeError. -/
theorem duplicate_dimension_keys_fatal_witness :
    mergeCurrency [] dupDimCurrency =
      Except.error (FactError.mergeNotManyToOne "dim_currency") :=
  duplicate_dimension_keys_fatal.1 [] dupDimCurrency (by decide)

/-- C7: when a static dimension passes the many-to-one validation, its left
join loses no transaction row (output length equals input length), and a
row whose natural key has no dimension match is kept with a null surrogate
key, for each of the three static-dimension joins. -/
theorem leftjoin_keeps_unmatched_rows :
    (∀ (rows : List ResolvedRow) (dim : List DimCurrencyRow),
        (dim.map (fun d => d.transaction_currency)).Nodup →
        ∃ out, mergeCurrency rows dim = Except.ok out ∧
          out.length = rows.length ∧
          ∀ r ∈ rows,
            (∀ d ∈ dim,
              ¬ d.transaction_currency = r.transaction_currency) →
            mkWithCurrency r none ∈ out) ∧
    (∀ (rows : List WithCurrencyRow) (dim : List DimCategoryRow),
        (dim.map (fun d => d.category)).Nodup →
        ∃ out, mergeCategory rows dim = Except.ok out ∧
          out.length = rows.length ∧
          ∀ r ∈ rows, (∀ d ∈ dim, ¬ d.category = r.category) →
            mkWithCategory r none ∈ out) ∧
    (∀ (rows : List WithCategoryRow) (dim : List DimDateRow),
        (dim.map (fun d => d.date)).Nodup →
        ∃ out, mergeDate rows dim = Except.ok out ∧
          out.length = rows.length ∧
          ∀ r ∈ rows, (∀ d ∈ dim, ¬ d.date = r.transaction_date) →
            mkWithDate r none ∈ out) := by
  refine ⟨?_, ?_, ?_⟩
  · intro rows dim h
    refine ⟨leftJoin (fun r => r.transaction_currency)
      (fun d => d.transaction_currency) mkWithCurrency rows dim, ?_, ?_, ?_⟩
    · unfold mergeCurrency
      rw [if_pos h]
    · exact leftJoin_length _ _ _ rows dim h
    · intro r hr hnm
      exact leftJoin_mem_of_no_match hr hnm
  · intro rows dim h
    refine ⟨leftJoin (fun r => r.category)
      (fun d => d.category) mkWithCategory rows dim, ?_, ?_, ?_⟩
    · unfold mergeCategory
      rw [if_pos h]
    · exact leftJoin_length _ _ _ rows dim h
    · intro r hr hnm
      exact leftJoin_mem_of_no_match hr hnm
  · intro rows dim h
    refine ⟨leftJoin (fun r => r.transaction_date)
      (fun d => d.date) mkWithDate rows dim, ?_, ?_, ?_⟩
    · unfold mergeDate
      rw [if_pos h]
    · exact leftJoin_length _ _ _ rows dim h
    · intro r hr hnm
      exact leftJoin_mem_of_no_match hr hnm

/-- C7 witness: a USD transaction joined against the EUR-only currency
dimension is kept, with a null currency_key. -/
theorem leftjoin_keeps_unmatched_rows_witness :
    ∃ out, mergeCurrency [unmatchedResolvedRow] sampleDimCurrency =
        Except.ok out ∧
      out.length = [unmatchedResolvedRow].length ∧
      mkWithCurrency unmatchedResolvedRow none ∈ out := by
  obtain ⟨out, hok, hlen, hmem⟩ := leftjoin_keeps_unmatched_rows.1
    [unmatchedResolvedRow] sampleDimCurrency (by decide)
  exact ⟨out, hok, hlen,
    hmem unmatchedResolvedRow (by decide) (by decide)⟩

/-- C8: a completed run writes the fact table with exactly the fixed column
list of the projection, in that order, and none of the SCD2 bookkeeping
columns (customer_id, effective_from, effective_to) appears in it. -/
theorem fact_table_columns
    (ts : List RawTransactionRow) (dimc : List DimCustomerRow)
    (dimcur : List DimCurrencyRow) (dimcat : List DimCategoryRow)
    (dimd : List DimDateRow) (fact : List FactRow)
    (h : (build_fact_transactions ts dimc dimcur dimcat dimd).result =
      Except.ok fact) :
    (build_fact_transactions ts dimc dimcur dimcat dimd).written =
        some (factColumns, fact) ∧
      factColumns = ["transaction_id", "transaction_key", "customer_key",
        "currency_key", "category_key", "date_key", "transaction_timestamp",
        "transaction_amount_eur", "current_exchange_rate",
        "is_high_value_transaction"] ∧
      "customer_id" ∉ factColumns ∧
      "effective_from" ∉ factColumns ∧
      "effective_to" ∉ factColumns :=
  ⟨build_written_of_ok h, rfl, by decide, by decide, by decide⟩

/-- C8 witness: the single-transaction fixture completes and writes the
header next to its one fact row. -/
theorem fact_table_columns_witness :
    (build_fact_transactions [sampleTransaction] sampleDimCustomer
        sampleDimCurrency sampleDimCategory sampleDimDate).written =
        some (factColumns, [sampleFactRow]) ∧
      factColumns = ["transaction_id", "transaction_key", "customer_key",
        "currency_key", "category_key", "date_key", "transaction_timestamp",
        "transaction_amount_eur", "current_exchange_rate",
        "is_high_value_transaction"] ∧
      "customer_id" ∉ factColumns ∧
      "effective_from" ∉ factColumns ∧
      "effective_to" ∉ factColumns :=
  fact_table_columns [sampleTransaction] sampleDimCustomer
    sampleDimCurrency sampleDimCategory sampleDimDate [sampleFactRow] rfl

/-- C9 counterexample: the claim that all four input dimension tables are
unchanged after any run is false.  With an open-ended (null) effective_to,
dim_customer comes back mutated even though the run aborted: the null was
replaced in place by the far-future sentinel at lines 76-79. -/
theorem input_tables_unchanged_cex :
    (build_fact_transactions [] openEndedDimCustomer sampleDimCurrency
        sampleDimCategory sampleDimDate).dim_customer ≠
      openEndedDimCustomer ∧
    runSucceeded (build_fact_transactions [] openEndedDimCustomer
      sampleDimCurrency sampleDimCategory sampleDimDate) = false := by
  decide

/-- C9 (amended): after any run, dim_currency and dim_category are
unchanged and dim_date is value-unchanged (only dtype-coerced), but
dim_customer is mutated in place: its interval columns are coerced and a
null effective_to is replaced by the far-future sentinel; rows whose
effective_to was already non-null are left as they were. -/
theorem dimension_tables_final_state
    (ts : List RawTransactionRow) (dimc : List DimCustomerRow)
    (dimcur : List DimCurrencyRow) (dimcat : List DimCategoryRow)
    (dimd : List DimDateRow) :
    (build_fact_transactions ts dimc dimcur dimcat dimd).dim_currency =
        dimcur ∧
      (build_fact_transactions ts dimc dimcur dimcat dimd).dim_category =
        dimcat ∧
      (build_fact_transactions ts dimc dimcur dimcat dimd).dim_date =
        dimd ∧
      (build_fact_transactions ts dimc dimcur dimcat dimd).dim_customer =
        prepCustomerDim dimc ∧
      ∀ c ∈ dimc, c.effective_to ≠ none → prepCustomerRow c = c := by
  obtain ⟨h1, h2, h3, h4⟩ := build_dims ts dimc dimcur dimcat dimd
  refine ⟨h2, h3, by rw [h4, prepDateDim_eq], h1, ?_⟩
  intro c hc hto
  obtain ⟨cid, ck, cf, cto⟩ := c
  cases cto with
  | none => exact absurd rfl hto
  | some e =>
    cases cf with
    | none => rfl
    | some f => rfl

/-- C9 amended-claim witness: dim_currency of the open-ended fixture comes
back unchanged, and a version with a non-null effective_to is untouched by
the preprocessing. -/
theorem dimension_tables_final_state_witness :
    (build_fact_transactions [] openEndedDimCustomer sampleDimCurrency
        sampleDimCategory sampleDimDate).dim_currency = sampleDimCurrency ∧
      prepCustomerRow sampleCustomerVersion = sampleCustomerVersion :=
  ⟨(dimension_tables_final_state [] openEndedDimCustomer sampleDimCurrency
      sampleDimCategory sampleDimDate).1,
    (dimension_tables_final_state [] [sampleCustomerVersion]
        sampleDimCurrency sampleDimCategory sampleDimDate).2.2.2.2
      sampleCustomerVersion (by decide) (by decide)⟩

/-- C10 counterexample: the claim that the customer_key null-check can
never fail is false.  A dimension version that covers the transaction date
but itself carries a null customer_key survives the interval filter, and
the run aborts in the "unreachable" branch. -/
theorem customer_key_check_unreachable_cex :
    (build_fact_transactions [sampleTransaction] nullKeyDimCustomer
        sampleDimCurrency sampleDimCategory sampleDimDate).result =
      Except.error (FactError.missingKey "customer_key") := by
  rfl

/-- C10 (amended): rows that survive the interval filter always carry the
customer_key of a matched dimension version (left-join rows with no match
have null bounds and never survive); hence, whenever every dim_customer row
carries a non-null customer_key, no surviving row has a null customer_key
and the final customer_key assert cannot fire.  The assert is reachable
only through a null customer_key inside dim_customer itself. -/
theorem customer_key_check_guarded
    (ts : List RawTransactionRow) (dimc : List DimCustomerRow)
    (dimcur : List DimCurrencyRow) (dimcat : List DimCategoryRow)
    (dimd : List DimDateRow)
    (h : ∀ c ∈ dimc, c.customer_key ≠ none) :
    (∀ m ∈ survivors ts dimc, m.customer_key ≠ none) ∧
    (∀ e, (build_fact_transactions ts dimc dimcur dimcat dimd).result =
        Except.error e → e ≠ FactError.missingKey "customer_key") := by
  have hsurv : ∀ m ∈ survivors ts dimc, m.customer_key ≠ none := by
    intro m hm
    obtain ⟨t, -, c, hc, hmeq, -, -⟩ := mem_survivors hm
    rw [hmeq]
    exact h c hc
  refine ⟨hsurv, ?_⟩
  intro e he hne
  subst hne
  cases hfc : factCandidate ts dimc dimcur dimcat dimd with
  | error e0 =>
    have hres := build_result_error_of_candidate hfc
    rw [he] at hres
    injection hres with h'
    rcases factCandidate_error_shape hfc with h0 | h0 | h0 | h0 <;>
      rw [h0] at h' <;> simp at h'
  | ok fact =>
    cases hnk : firstNullKeyError fact with
    | none =>
      have hres := build_ok_of_candidate hfc hnk
      rw [he] at hres
      exact Except.noConfusion hres
    | some e1 =>
      have hab := build_abort_of_nullkey hfc hnk
      rw [he] at hab
      have h1 : Except.error (FactError.missingKey "customer_key") =
          (Except.error e1 : Except FactError (List FactRow)) := hab.1
      injection h1 with h1'
      rw [← h1'] at hnk
      have hany : fact.any (fun r => r.customer_key.isNone) = true := by
        unfold firstNullKeyError at hnk
        split_ifs at hnk with hc1 hc2 hc3 hc4
        · exact hc1
        · injection hnk with hx
          injection hx with hy
          exact absurd hy (by decide)
        · injection hnk with hx
          injection hx with hy
          exact absurd hy (by decide)
        · injection hnk with hx
          injection hx with hy
          exact absurd hy (by decide)
      rw [List.any_eq_true] at hany
      obtain ⟨x, hxmem, hxnull⟩ := hany
      obtain ⟨m, hm, -, hkey⟩ := factRow_origin hfc hxmem
      have hne2 := hsurv m hm
      rw [← hkey] at hne2
      rw [Option.isNone_iff_eq_none] at hxnull
      exact hne2 hxnull

/-- C10 witness: with a fully keyed customer dimension, an abort of the run
is never the customer_key integrity error. -/
theorem customer_key_check_guarded_witness :
    FactError.scd2Resolution ≠ FactError.missingKey "customer_key" :=
  (customer_key_check_guarded [] sampleDimCustomer sampleDimCurrency
      sampleDimCategory sampleDimDate (by decide)).2
    FactError.scd2Resolution rfl

end FactTransactions
